import Mathlib

/-!
Shallow embedding of the cold-outreach lead engine (Flask `server.py`,
CLI `main.py`, and `scripts/main.py`).

The SQLite `leads` table of a campaign is modelled as a list of `Lead` rows.
`UPDATE leads SET ... WHERE email = ?` becomes a map over the list that
rewrites every row whose `email` matches; `SELECT ... WHERE ... LIMIT`
style `fetchone` lookups become `List.find?`.  Wall-clock reads
(`time.ctime()`) are passed in as a `now : String` argument, the SMTP
transport outcome as a `Bool`, the `hashlib.sha256` hex digest as an
abstract function argument `hashEmail : String → String`, and the
`email_validator` check as a predicate argument.  Flask responses are
small inductive types; an unhandled Python exception (attribute access on
a `None` campaign manager) is modelled as a dedicated error constructor.
-/

set_option maxRecDepth 8000

namespace ColdOutreach

/-- One row of the `leads` table (schema from `init_db` in `server.py`):
`email TEXT PRIMARY KEY, first_name TEXT, status TEXT, timestamp TEXT,
hash TEXT, opened_timestamp TEXT, email_sent INTEGER,
interact_count INTEGER DEFAULT 0, last_interact_timestamp TEXT,
sent_template TEXT, notes TEXT`.  `email_sent` is an INTEGER flag whose
NULLs are normalised to `0` by `init_db`, so it is modelled as a `Nat`;
nullable TEXT columns are `Option String`. -/
structure Lead where
  email : String
  first_name : String
  status : String
  timestamp : Option String
  hash : String
  opened_timestamp : Option String
  email_sent : Nat
  interact_count : Nat
  last_interact_timestamp : Option String
  sent_template : Option String
  notes : Option String
deriving Repr, DecidableEq

/-- A campaign's lead store: the rows of its `leads` table. -/
abbrev Db := List Lead

/-- Python truthiness of an optional request/DB string:
`not x` holds when the value is absent (`None`) or the empty string. -/
def isBlank : Option String → Bool
  | none => true
  | some s => s == ""

/-- `UPDATE leads SET ... WHERE email = ?`: rewrite every row whose
`email` equals `e` with `f`. -/
def updateByEmail (e : String) (f : Lead → Lead) (db : Db) : Db :=
  db.map fun l => if l.email = e then f l else l

/-- `SELECT ... FROM leads WHERE hash = ?` followed by `fetchone`. -/
def findByHash (h : String) (db : Db) : Option Lead :=
  db.find? fun l => l.hash = h

/-- `SELECT ... FROM leads WHERE email = ?` followed by `fetchone`. -/
def findByEmail (e : String) (db : Db) : Option Lead :=
  db.find? fun l => l.email = e

/-- `get_campaign_manager` (`server.py`): `None` when the name is falsy or
not among the configured campaigns, otherwise the manager (identified here
by the campaign name). -/
def get_campaign_manager (registry : List String) (campaign_name : String) :
    Option String :=
  if campaign_name == "" || ! registry.contains campaign_name then none
  else some campaign_name

/-- Response of the `/track_open` endpoint: `empty` is the `("", 200)`
early return on a missing hash parameter, `image` the fixed GIF payload. -/
inductive OpenResponse where
  | empty
  | image (bytes : List Nat)
deriving Repr, DecidableEq

/-- The fixed 1x1 transparent GIF returned by `/track_open`, byte for
byte as in `server.py`. -/
def gifBytes : List Nat :=
  [0x47, 0x49, 0x46, 0x38, 0x39, 0x61, 0x01, 0x00, 0x01, 0x00, 0x80,
   0x00, 0x00, 0xff, 0xff, 0xff, 0x00, 0x00, 0x00, 0x21, 0xf9, 0x04,
   0x01, 0x00, 0x00, 0x00, 0x00, 0x2c, 0x00, 0x00, 0x00, 0x00, 0x01,
   0x00, 0x01, 0x00, 0x00, 0x02, 0x02, 0x44, 0x01, 0x00, 0x3b]

/-- `/track_open` (`server.py`): on a missing `hash` parameter returns the
empty body; otherwise, when the `campaign` parameter is truthy and
configured and the hash resolves to a lead, a first open (falsy
`opened_timestamp`) sets `status = 'yellow'`, stamps `opened_timestamp`,
and bumps `interact_count`/`last_interact_timestamp`, while a repeat open
only bumps the counter and the last-interaction stamp; in every non-early
case the fixed GIF is returned. -/
def track_open (registry : List String) (db : Db)
    (hashParam campaignParam : Option String) (now : String) :
    OpenResponse × Db :=
  if isBlank hashParam then (.empty, db)
  else
    let email_hash := hashParam.getD ""
    if !(isBlank campaignParam) && registry.contains (campaignParam.getD "") then
      match findByHash email_hash db with
      | some row =>
        let new_count := row.interact_count + 1
        if isBlank row.opened_timestamp then
          (.image gifBytes,
           updateByEmail row.email (fun l =>
             { l with status := "yellow", opened_timestamp := some now,
                      interact_count := new_count,
                      last_interact_timestamp := some now }) db)
        else
          (.image gifBytes,
           updateByEmail row.email (fun l =>
             { l with interact_count := new_count,
                      last_interact_timestamp := some now }) db)
      | none => (.image gifBytes, db)
    else (.image gifBytes, db)

/-- Response of the `/track_link` endpoint: `invalid` is the 400 on
missing parameters, `serverError` the unhandled exception raised when
`get_campaign_manager` returns `None` and `manager.get_db_path()` is
dereferenced, `redirectTo` the final redirect. -/
inductive LinkResponse where
  | invalid
  | serverError
  | redirectTo (url : String)
deriving Repr, DecidableEq

/-- The "interested" marker URL whose prefix `/track_link` tests the
click destination against. -/
def greenMarker (campaign_name : String) : String :=
  "https://nma.themysticaroma.com/green?campaign=" ++ campaign_name

/-- Python `destination.startswith(green_url)`: a character-level prefix
test (executably equivalent to `String.startsWith`, whose byte-level loop
does not reduce). -/
def strStartsWith (s pre : String) : Bool :=
  pre.data.isPrefixOf s.data

/-- `/track_link` (`server.py`): 400 when `hash` or `url` is missing;
campaign defaults to `"poland"`; an unconfigured campaign crashes before
any store access; otherwise the lead is looked up by hash and, if found,
a destination starting with the green marker sets `status = 'green'`, a
generic destination sets `status = 'yellow'` unless the current status is
`red` (which only counts the interaction); the response is always a
redirect to the destination, lead found or not. -/
def track_link (registry : List String) (db : Db)
    (hashParam urlParam campaignParam : Option String) (now : String) :
    LinkResponse × Db :=
  let campaign_name := campaignParam.getD "poland"
  if isBlank hashParam || isBlank urlParam then (.invalid, db)
  else
    match get_campaign_manager registry campaign_name with
    | none => (.serverError, db)
    | some _ =>
      let email_hash := hashParam.getD ""
      let destination := urlParam.getD ""
      match findByHash email_hash db with
      | some row =>
        let new_count := row.interact_count + 1
        if strStartsWith destination (greenMarker campaign_name) then
          (.redirectTo destination,
           updateByEmail row.email (fun l =>
             { l with status := "green", interact_count := new_count,
                      last_interact_timestamp := some now }) db)
        else if row.status != "red" then
          (.redirectTo destination,
           updateByEmail row.email (fun l =>
             { l with status := "yellow", interact_count := new_count,
                      last_interact_timestamp := some now }) db)
        else
          (.redirectTo destination,
           updateByEmail row.email (fun l =>
             { l with interact_count := new_count,
                      last_interact_timestamp := some now }) db)
      | none => (.redirectTo destination, db)

/-- Response of the `/green` endpoint: 400 on a missing hash, the
unhandled-`None`-manager exception, 404 when no lead matches, or the
redirect to the campaign's landing page. -/
inductive GreenResponse where
  | invalid
  | serverError
  | notFound
  | redirectTo (url : String)
deriving Repr, DecidableEq

/-- The linear scan of `/green`: the first lead whose recomputed
`hash_email(email)` equals the submitted hash. -/
def greenFind (hashEmail : String → String) (h : String) (db : Db) :
    Option Lead :=
  db.find? fun l => hashEmail l.email = h

/-- `/green` (`server.py`): the campaign defaults to `"poland"` and is
looked up first; a missing hash yields 400 before the manager is
dereferenced, an unconfigured campaign then crashes; otherwise the first
lead whose recomputed email hash matches is set to `status = 'green'`
with a fresh `timestamp`, one interested-notification email is fired (the
`Nat` component counts notifications), and the loop breaks; no match
yields 404, a match redirects to the landing page. -/
def green (hashEmail : String → String) (registry : List String)
    (landing_page : String) (db : Db)
    (hashParam campaignParam : Option String) (now : String) :
    GreenResponse × Db × Nat :=
  let campaign_name := campaignParam.getD "poland"
  if isBlank hashParam then (.invalid, db, 0)
  else
    match get_campaign_manager registry campaign_name with
    | none => (.serverError, db, 0)
    | some _ =>
      let email_hash := hashParam.getD ""
      match greenFind hashEmail email_hash db with
      | some row =>
        (.redirectTo landing_page,
         updateByEmail row.email (fun l =>
           { l with status := "green", timestamp := some now }) db,
         1)
      | none => (.notFound, db, 0)

/-- `/move_lead` (`server.py`, authenticated POST): the campaign defaults
to `"poland"`; an unconfigured campaign crashes on the `None` manager
(`none` result); otherwise the submitted status string is written
verbatim together with a fresh `timestamp` to every row matching the
submitted email — no validation of the status value — and the handler
redirects back to the dashboard. -/
def move_lead (registry : List String) (db : Db)
    (emailParam statusParam : String) (campaignParam : Option String)
    (now : String) : Option (Db × String) :=
  let campaign_name := campaignParam.getD "poland"
  match get_campaign_manager registry campaign_name with
  | none => none
  | some _ =>
    some (updateByEmail emailParam (fun l =>
            { l with status := statusParam, timestamp := some now }) db,
          "/dashboard?campaign=" ++ campaign_name)

/-- `send_email` (`server.py`; the DB effects of the `main.py` variant
are identical): leads already in `green`/`red`/`blue` are skipped; on a
successful transmission (`transportOk`) the row gets `email_sent = 1`,
`interact_count` bumped by one from the value read before sending, fresh
`timestamp`/`last_interact_timestamp`, and the template id recorded in
`sent_template`; on a transport failure the row gets `email_sent = 0` and
nothing else changes.  Returns the Python `True`/`False` result together
with the updated store. -/
def send_email (db : Db) (email : String) (transportOk : Bool)
    (now email_template : String) : Bool × Db :=
  let result := findByEmail email db
  match result with
  | some row =>
    if ["green", "red", "blue"].contains row.status then
      (false, db)
    else if transportOk then
      (true,
       updateByEmail email (fun l =>
         { l with email_sent := 1, interact_count := row.interact_count + 1,
                  timestamp := some now, sent_template := some email_template,
                  last_interact_timestamp := some now }) db)
    else
      (false, updateByEmail email (fun l => { l with email_sent := 0 }) db)
  | none =>
    if transportOk then
      (true,
       updateByEmail email (fun l =>
         { l with email_sent := 1, interact_count := 0 + 1,
                  timestamp := some now, sent_template := some email_template,
                  last_interact_timestamp := some now }) db)
    else
      (false, updateByEmail email (fun l => { l with email_sent := 0 }) db)

/-- The eligibility query of `run_campaign` / the `send` action:
`SELECT email, first_name FROM leads WHERE status = 'gray' AND
(email_sent IS NULL OR email_sent = 0)` (NULL flags were normalised to
`0` by `init_db`). -/
def selectEligible (db : Db) : List (String × String) :=
  (db.filter fun l => l.status == "gray" && l.email_sent == 0).map
    fun l => (l.email, l.first_name)

/-- The `for email, first_name in leads:` loop body of `run_campaign`:
each selected lead is sent to in turn, and the loop continues whether the
send succeeded or not (`transportOk` gives each address's transport
outcome). -/
def dispatch (transportOk : String → Bool) (now email_template : String) :
    Db → List (String × String) → Db
  | db, [] => db
  | db, (email, _) :: rest =>
    dispatch transportOk now email_template
      (send_email db email (transportOk email) now email_template).2 rest

/-- One pass of the `run_campaign` loop (`server.py`): select the
eligible gray leads once, then send to each of them in order. -/
def run_campaign_pass (transportOk : String → Bool)
    (now email_template : String) (db : Db) : Db :=
  dispatch transportOk now email_template db (selectEligible db)

/-- One parsed CSV record handed to `load_csv_to_db`. -/
structure CsvRow where
  email : String
  first_name : String
deriving Repr, DecidableEq

/-- The row `load_csv_to_db` (`main.py`) inserts for a fresh email:
`INSERT INTO leads (email, first_name, status, timestamp, hash,
email_sent, interact_count, last_interact_timestamp) VALUES
(?, ?, 'gray', time.ctime(), hash_email(email), 0, 0, NULL)`. -/
def newLead (hashEmail : String → String) (now : String) (r : CsvRow) :
    Lead :=
  { email := r.email, first_name := r.first_name, status := "gray",
    timestamp := some now, hash := hashEmail r.email,
    opened_timestamp := none, email_sent := 0, interact_count := 0,
    last_interact_timestamp := none, sent_template := none, notes := none }

/-- The reader loop of `load_csv_to_db` (`main.py`): invalid emails are
logged and skipped, emails already in `existing_emails` are skipped as
duplicates, and fresh valid emails are inserted and added to the set. -/
def loadRows (valid : String → Bool) (hashEmail : String → String)
    (now : String) : List CsvRow → Db → List String → Db
  | [], db, _ => db
  | r :: rest, db, existing =>
    if valid r.email then
      if existing.contains r.email then
        loadRows valid hashEmail now rest db existing
      else
        loadRows valid hashEmail now rest (db ++ [newLead hashEmail now r])
          (r.email :: existing)
    else loadRows valid hashEmail now rest db existing

/-- `load_csv_to_db` (`main.py`): seed `existing_emails` with
`SELECT email FROM leads`, then run the reader loop.  (The
`scripts/main.py` variant reaches the same no-op-on-duplicate behaviour
through `INSERT OR IGNORE` on the `email` primary key.) -/
def load_csv_to_db (valid : String → Bool) (hashEmail : String → String)
    (now : String) (rows : List CsvRow) (db : Db) : Db :=
  loadRows valid hashEmail now rows db (db.map Lead.email)

/-- The click-then-land flow behind the interested marker: the tracked
click is processed by `/track_link`, whose response redirects the browser
to the marker destination, i.e. the `/green` endpoint, processed next on
the updated store.  Returns both responses, the final store, and the
number of interested notifications fired. -/
def greenClickFlow (hashEmail : String → String) (registry : List String)
    (landing_page : String) (db : Db)
    (h destination campaign_name : String) (now1 now2 : String) :
    LinkResponse × GreenResponse × Db × Nat :=
  let r1 := track_link registry db (some h) (some destination)
    (some campaign_name) now1
  let r2 := green hashEmail registry landing_page r1.2 (some h)
    (some campaign_name) now2
  (r1.1, r2.1, r2.2.1, r2.2.2)

/-! ### Store lemmas -/

theorem updateByEmail_id (e : String) (db : Db) :
    updateByEmail e (fun l => l) db = db := by
  simp [updateByEmail]

theorem updateFn_email (e : String) (f : Lead → Lead)
    (hf : ∀ x, (f x).email = x.email) (x : Lead) :
    (if x.email = e then f x else x).email = x.email := by
  split <;> simp [hf]

theorem emails_updateByEmail (e : String) (f : Lead → Lead)
    (hf : ∀ x, (f x).email = x.email) (db : Db) :
    (updateByEmail e f db).map Lead.email = db.map Lead.email := by
  unfold updateByEmail
  rw [List.map_map]
  exact List.map_congr_left fun a _ => updateFn_email e f hf a

theorem find?_map_of_pred (g : Lead → Lead) (p q : Lead → Bool)
    (hpq : ∀ x, p (g x) = q x) (db : Db) :
    (db.map g).find? p = (db.find? q).map g := by
  induction db with
  | nil => rfl
  | cons a t ih =>
    rw [List.map_cons, List.find?_cons, List.find?_cons, hpq a]
    cases hqa : q a
    · simpa using ih
    · rfl

theorem findByEmail_email {e : String} {db : Db} {l : Lead}
    (h : findByEmail e db = some l) : l.email = e := by
  unfold findByEmail at h
  simpa using List.find?_some h

theorem findByEmail_mem {e : String} {db : Db} {l : Lead}
    (h : findByEmail e db = some l) : l ∈ db :=
  List.mem_of_find?_eq_some h

theorem greenFind_hash {hashEmail : String → String} {h : String}
    {db : Db} {l : Lead} (hl : greenFind hashEmail h db = some l) :
    hashEmail l.email = h := by
  unfold greenFind at hl
  simpa using List.find?_some hl

theorem greenFind_mem {hashEmail : String → String} {h : String}
    {db : Db} {l : Lead} (hl : greenFind hashEmail h db = some l) :
    l ∈ db :=
  List.mem_of_find?_eq_some hl

theorem findByEmail_updateByEmail (e e' : String) (f : Lead → Lead)
    (hf : ∀ x, (f x).email = x.email) (db : Db) :
    findByEmail e (updateByEmail e' f db)
      = (findByEmail e db).map fun l => if l.email = e' then f l else l := by
  unfold findByEmail updateByEmail
  exact find?_map_of_pred _ _ _
    (fun x => by by_cases hx : x.email = e' <;> simp [hx, hf]) db

theorem findByEmail_updateByEmail_self (e : String) (f : Lead → Lead)
    (hf : ∀ x, (f x).email = x.email) (db : Db) :
    findByEmail e (updateByEmail e f db) = (findByEmail e db).map f := by
  rw [findByEmail_updateByEmail e e f hf db]
  cases hfind : findByEmail e db with
  | none => rfl
  | some l => simp [findByEmail_email hfind]

theorem findByEmail_updateByEmail_ne (e e' : String) (f : Lead → Lead)
    (hf : ∀ x, (f x).email = x.email) (hne : e ≠ e') (db : Db) :
    findByEmail e (updateByEmail e' f db) = findByEmail e db := by
  rw [findByEmail_updateByEmail e e' f hf db]
  cases hfind : findByEmail e db with
  | none => rfl
  | some l =>
    have : ¬ l.email = e' := by
      rw [findByEmail_email hfind]; exact hne
    simp [this]

theorem greenFind_updateByEmail (hashEmail : String → String)
    (h e : String) (f : Lead → Lead)
    (hf : ∀ x, (f x).email = x.email) (db : Db) :
    greenFind hashEmail h (updateByEmail e f db)
      = (greenFind hashEmail h db).map fun l =>
          if l.email = e then f l else l := by
  unfold greenFind updateByEmail
  exact find?_map_of_pred _ _ _
    (fun x => by by_cases hx : x.email = e <;> simp [hx, hf]) db

theorem updateByEmail_updateByEmail (e : String) (f g : Lead → Lead)
    (hf : ∀ x, (f x).email = x.email) (db : Db) :
    updateByEmail e g (updateByEmail e f db)
      = updateByEmail e (fun x => g (f x)) db := by
  unfold updateByEmail
  rw [List.map_map]
  refine List.map_congr_left fun a _ => ?_
  by_cases h : a.email = e
  · simp [h, hf]
  · simp [h]

theorem findByEmail_of_nodup {db : Db} {l : Lead}
    (hnd : (db.map Lead.email).Nodup) (hl : l ∈ db) :
    findByEmail l.email db = some l := by
  induction db with
  | nil => cases hl
  | cons a t ih =>
    rw [List.map_cons, List.nodup_cons] at hnd
    rcases List.mem_cons.mp hl with rfl | hlt
    · simp [findByEmail, List.find?_cons]
    · have hne : ¬ a.email = l.email := fun hc =>
        hnd.1 (hc ▸ List.mem_map_of_mem Lead.email hlt)
      simpa [findByEmail, List.find?_cons, hne] using ih hnd.2 hlt

/-! ### Dispatcher lemmas -/

/-- Whatever branch `send_email` takes, the resulting store is the input
store with some email-preserving rewrite applied to the rows of the
targeted address. -/
theorem send_email_snd_shape (db : Db) (email : String) (b : Bool)
    (now tmpl : String) :
    ∃ u : Lead → Lead, (send_email db email b now tmpl).2
        = updateByEmail email u db ∧ ∀ x, (u x).email = x.email := by
  unfold send_email
  cases hfind : findByEmail email db with
  | none =>
    cases b
    · exact ⟨fun l => { l with email_sent := 0 }, by simp, fun x => rfl⟩
    · exact ⟨fun l =>
        { l with email_sent := 1, interact_count := 0 + 1,
                 timestamp := some now, sent_template := some tmpl,
                 last_interact_timestamp := some now }, by simp, fun x => rfl⟩
  | some row =>
    by_cases hskip : row.status = "green" ∨ row.status = "red" ∨ row.status = "blue"
    · exact ⟨fun l => l, by simp [hskip, updateByEmail_id], fun x => rfl⟩
    · cases b
      · exact ⟨fun l => { l with email_sent := 0 }, by simp [hskip], fun x => rfl⟩
      · exact ⟨fun l =>
          { l with email_sent := 1,
                   interact_count := row.interact_count + 1,
                   timestamp := some now, sent_template := some tmpl,
                   last_interact_timestamp := some now },
          by simp [hskip], fun x => rfl⟩

/-- Rows whose address is not in the work list are untouched by the
dispatch loop. -/
theorem dispatch_findByEmail_not_mem (ok : String → Bool)
    (now tmpl : String) (e : String) :
    ∀ (L : List (String × String)) (db : Db),
      (∀ p ∈ L, p.1 ≠ e) →
      findByEmail e (dispatch ok now tmpl db L) = findByEmail e db := by
  intro L
  induction L with
  | nil => intro db _; rfl
  | cons p rest ih =>
    intro db hL
    obtain ⟨e', fn'⟩ := p
    obtain ⟨u, hu, hupre⟩ := send_email_snd_shape db e' (ok e') now tmpl
    have hne : e ≠ e' := fun hc => hL (e', fn') (List.mem_cons_self _ _) hc.symm
    calc findByEmail e (dispatch ok now tmpl db ((e', fn') :: rest))
        = findByEmail e
            (dispatch ok now tmpl (send_email db e' (ok e') now tmpl).2 rest) := rfl
      _ = findByEmail e (send_email db e' (ok e') now tmpl).2 :=
          ih _ fun q hq => hL q (List.mem_cons_of_mem _ hq)
      _ = findByEmail e db := by
          rw [hu]; exact findByEmail_updateByEmail_ne e e' u hupre hne db

/-- Every gray, unsent lead on the work list ends the dispatch loop with
its own transport outcome recorded, whatever happened to the leads
processed before or after it. -/
theorem dispatch_processes (ok : String → Bool) (now tmpl : String) :
    ∀ (L : List (String × String)) (db : Db) (e fn : String) (l : Lead),
      (L.map Prod.fst).Nodup → (e, fn) ∈ L →
      findByEmail e db = some l → l.status = "gray" →
      findByEmail e (dispatch ok now tmpl db L)
        = some (if ok e then
                  { l with email_sent := 1,
                           interact_count := l.interact_count + 1,
                           timestamp := some now, sent_template := some tmpl,
                           last_interact_timestamp := some now }
                else { l with email_sent := 0 }) := by
  intro L
  induction L with
  | nil => intro db e fn l _ hmem; cases hmem
  | cons p rest ih =>
    intro db e fn l hnd hmem hfind hgray
    obtain ⟨e', fn'⟩ := p
    simp only [List.map_cons, List.nodup_cons] at hnd
    by_cases he : e' = e
    · subst he
      have hrest : ∀ q ∈ rest, q.1 ≠ e' := by
        intro q hq hc
        apply hnd.1
        rw [← hc]
        exact List.mem_map_of_mem Prod.fst hq
      have hskip : ¬ (l.status = "green" ∨ l.status = "red" ∨ l.status = "blue") := by
        rw [hgray]; decide
      have hstep : (send_email db e' (ok e') now tmpl).2
          = updateByEmail e' (fun x =>
              if ok e' then
                { x with email_sent := 1,
                         interact_count := l.interact_count + 1,
                         timestamp := some now, sent_template := some tmpl,
                         last_interact_timestamp := some now }
              else { x with email_sent := 0 }) db := by
        unfold send_email
        rw [hfind]
        cases hok : ok e' <;> simp [hskip, hok]
      calc findByEmail e' (dispatch ok now tmpl db ((e', fn') :: rest))
          = findByEmail e'
              (dispatch ok now tmpl (send_email db e' (ok e') now tmpl).2 rest) := rfl
        _ = findByEmail e' (send_email db e' (ok e') now tmpl).2 :=
            dispatch_findByEmail_not_mem ok now tmpl e' rest _ hrest
        _ = _ := by
            rw [hstep, findByEmail_updateByEmail_self e' _
              (fun x => by cases ok e' <;> rfl) db, hfind]
            cases ok e' <;> rfl
    · have hmem' : (e, fn) ∈ rest := by
        rcases List.mem_cons.mp hmem with hc | hc
        · cases hc; exact absurd rfl he
        · exact hc
      obtain ⟨u, hu, hupre⟩ := send_email_snd_shape db e' (ok e') now tmpl
      have hfind' : findByEmail e (send_email db e' (ok e') now tmpl).2
          = some l := by
        rw [hu, findByEmail_updateByEmail_ne e e' u hupre (fun hc => he hc.symm) db]
        exact hfind
      exact ih _ e fn l hnd.2 hmem' hfind' hgray

theorem findByHash_mem {h : String} {db : Db} {l : Lead}
    (hl : findByHash h db = some l) : l ∈ db :=
  List.mem_of_find?_eq_some hl

theorem contains_of_mem {xs : List String} {a : String} (h : a ∈ xs) :
    xs.contains a = true := by
  simpa using h

theorem isBlank_some_eq_false {s : String} (h : s ≠ "") :
    isBlank (some s) = false := by
  simp [isBlank, h]

theorem not_contains_of_not_mem {xs : List String} {a : String}
    (h : a ∉ xs) : xs.contains a = false := by
  simpa using h

/-- A sample `leads` row used by the concrete scenarios; its tracking
hash is `"h"` prepended to the email. -/
def mkLead (e fn st : String) (opened : Option String) (sent cnt : Nat) :
    Lead :=
  { email := e, first_name := fn, status := st, timestamp := none,
    hash := "h" ++ e, opened_timestamp := opened, email_sent := sent,
    interact_count := cnt, last_interact_timestamp := none,
    sent_template := none, notes := none }

/-! ### Claims -/

/-- Claim C9: an authenticated move-status request on a configured
campaign writes the submitted status string to the matching lead rows
verbatim and re-stamps `timestamp`, with no validation that the value is
one of gray/yellow/green/blue/red — the status argument is an arbitrary
string and is stored as given. -/
theorem claim_C9_move_lead_verbatim (registry : List String) (db : Db)
    (email newStatus name now : String)
    (hn : name ∈ registry) (hne : name ≠ "") :
    move_lead registry db email newStatus (some name) now
      = some (updateByEmail email (fun l =>
                { l with status := newStatus, timestamp := some now }) db,
              "/dashboard?campaign=" ++ name) ∧
    ∀ l ∈ db, l.email = email →
      { l with status := newStatus, timestamp := some now }
        ∈ updateByEmail email (fun l =>
            { l with status := newStatus, timestamp := some now }) db := by
  constructor
  · unfold move_lead get_campaign_manager
    simp [contains_of_mem hn, hne, hn]
  · intro l hl hle
    unfold updateByEmail
    have hmem := List.mem_map_of_mem
      (fun x => if x.email = email then
        { x with status := newStatus, timestamp := some now } else x) hl
    simpa [hle] using hmem

/-- Claim C9 witness: the arbitrary string `"purple"` becomes the stored
status of the lead. -/
theorem claim_C9_witness :
    move_lead ["poland"] [mkLead "a@x.com" "Ann" "gray" none 0 0]
        "a@x.com" "purple" (some "poland") "t1"
      = some (updateByEmail "a@x.com" (fun l =>
                { l with status := "purple", timestamp := some "t1" })
                [mkLead "a@x.com" "Ann" "gray" none 0 0],
              "/dashboard?campaign=poland") :=
  (claim_C9_move_lead_verbatim ["poland"]
    [mkLead "a@x.com" "Ann" "gray" none 0 0] "a@x.com" "purple" "poland"
    "t1" (by decide) (by decide)).1

/-- Claim C10: a click-tracking request whose campaign parameter is
present but names no configured campaign makes `get_campaign_manager`
return no manager, and the endpoint then dies with an unhandled error
before any store access: no redirect is issued and the store is
unchanged. -/
theorem claim_C10_unconfigured_campaign (registry : List String) (db : Db)
    (h url name now : String) (hh : h ≠ "") (hu : url ≠ "")
    (hn : name ∉ registry) :
    get_campaign_manager registry name = none ∧
    track_link registry db (some h) (some url) (some name) now
      = (.serverError, db) := by
  have hmgr : get_campaign_manager registry name = none := by
    unfold get_campaign_manager
    simp [not_contains_of_not_mem hn]
    exact fun _ => hn
  refine ⟨hmgr, ?_⟩
  unfold track_link
  simp [isBlank, hh, hu, hmgr]

/-- Claim C10 witness: campaign `"nowhere"` is not configured, so the
click request errors out with the store untouched. -/
theorem claim_C10_witness :
    get_campaign_manager ["poland"] "nowhere" = none ∧
    track_link ["poland"] [mkLead "a@x.com" "Ann" "gray" none 0 0]
        (some "ha@x.com") (some "https://example.com/page") (some "nowhere")
        "t1"
      = (.serverError, [mkLead "a@x.com" "Ann" "gray" none 0 0]) :=
  claim_C10_unconfigured_campaign ["poland"]
    [mkLead "a@x.com" "Ann" "gray" none 0 0] "ha@x.com"
    "https://example.com/page" "nowhere" "t1" (by decide) (by decide)
    (by decide)

/-- Claim C6: a tracking token that resolves to no lead leaves the open
endpoint returning the fixed 1x1 image, the click endpoint redirecting to
the requested destination, and the store unmodified by both requests. -/
theorem claim_C6_unknown_token (registry : List String) (db : Db)
    (h dest name now : String) (hh : h ≠ "") (hd : dest ≠ "")
    (hn : name ∈ registry) (hne : name ≠ "")
    (hmiss : findByHash h db = none) :
    track_open registry db (some h) (some name) now
      = (.image gifBytes, db) ∧
    track_link registry db (some h) (some dest) (some name) now
      = (.redirectTo dest, db) := by
  constructor
  · unfold track_open
    simp [isBlank, hh, hne, contains_of_mem hn, hmiss]
  · unfold track_link get_campaign_manager
    simp [isBlank, hh, hd, hne, contains_of_mem hn, hn, hmiss]

/-- Claim C6 witness: the token `"zz"` matches no lead; both endpoints
answer benignly and the single-row store is returned unchanged. -/
theorem claim_C6_witness :
    track_open ["poland"] [mkLead "a@x.com" "Ann" "gray" none 0 0]
        (some "zz") (some "poland") "t1"
      = (.image gifBytes, [mkLead "a@x.com" "Ann" "gray" none 0 0]) ∧
    track_link ["poland"] [mkLead "a@x.com" "Ann" "gray" none 0 0]
        (some "zz") (some "https://example.com/page") (some "poland") "t1"
      = (.redirectTo "https://example.com/page",
         [mkLead "a@x.com" "Ann" "gray" none 0 0]) :=
  claim_C6_unknown_token ["poland"] [mkLead "a@x.com" "Ann" "gray" none 0 0]
    "zz" "https://example.com/page" "poland" "t1" (by decide) (by decide)
    (by decide) (by decide) (by decide)

/-- Claim C1 counterexample: a successful send to a fresh gray lead with
`interact_count = 0` leaves the counter at `1`, not `0` — sending does
count as an interaction in the code, refuting the claim that
`interact_count` is left unchanged. -/
theorem claim_C1_counterexample :
    (send_email [mkLead "a@x.com" "Ann" "gray" none 0 0] "a@x.com" true
        "t1" "email.html").2.map Lead.interact_count = [1] ∧
    [mkLead "a@x.com" "Ann" "gray" none 0 0].map Lead.interact_count
      = [0] := by
  constructor <;> rfl

/-- Claim C1 (amended): a successful outbound send to a non-skipped lead
sets `email_sent = 1`, records the template id in `sent_template` and
fresh send/interaction timestamps, and additionally increments
`interact_count` by one — sending is counted as an interaction. -/
theorem claim_C1_amended (db : Db) (l : Lead) (email now tmpl : String)
    (hfind : findByEmail email db = some l)
    (hst : ¬ (l.status = "green" ∨ l.status = "red" ∨ l.status = "blue")) :
    send_email db email true now tmpl
      = (true, updateByEmail email (fun x =>
          { x with email_sent := 1,
                   interact_count := l.interact_count + 1,
                   timestamp := some now, sent_template := some tmpl,
                   last_interact_timestamp := some now }) db) := by
  unfold send_email
  rw [hfind]
  simp [hst]

/-- Claim C1 (amended) witness: the concrete gray lead ends with
`email_sent = 1`, the template recorded, and the counter bumped to 1. -/
theorem claim_C1_witness :
    send_email [mkLead "a@x.com" "Ann" "gray" none 0 0] "a@x.com" true
        "t1" "email.html"
      = (true, updateByEmail "a@x.com" (fun x =>
          { x with email_sent := 1, interact_count := 0 + 1,
                   timestamp := some "t1", sent_template := some "email.html",
                   last_interact_timestamp := some "t1" })
          [mkLead "a@x.com" "Ann" "gray" none 0 0]) :=
  claim_C1_amended [mkLead "a@x.com" "Ann" "gray" none 0 0]
    (mkLead "a@x.com" "Ann" "gray" none 0 0) "a@x.com" "t1" "email.html"
    (by rfl) (by decide)

/-- Claim C2 counterexample: a first open (no `opened_timestamp`) on a
lead already in status `green` rewrites the status to `yellow` — the code
downgrades green/red/blue on a first open, refuting the no-downgrade
claim. -/
theorem claim_C2_counterexample :
    (track_open ["poland"] [mkLead "a@x.com" "Ann" "green" none 0 3]
        (some "ha@x.com") (some "poland") "t1").2.map
      (fun l => (l.status, l.opened_timestamp, l.interact_count))
      = [("yellow", some "t1", 4)] ∧
    ("yellow" : String) ≠ "green" := by
  constructor
  · rfl
  · decide

/-- Claim C2 (amended): a first open event (falsy `opened_timestamp`) on
a resolvable token sets the status to `yellow` unconditionally — leads
already in green, red, or blue are downgraded to yellow as well — while
setting `opened_timestamp` and incrementing `interact_count`. -/
theorem claim_C2_amended (registry : List String) (db : Db)
    (h name now : String) (l : Lead)
    (hh : h ≠ "") (hn : name ∈ registry) (hne : name ≠ "")
    (hfind : findByHash h db = some l)
    (hopen : isBlank l.opened_timestamp = true) :
    track_open registry db (some h) (some name) now
      = (.image gifBytes,
         updateByEmail l.email (fun x =>
           { x with status := "yellow", opened_timestamp := some now,
                    interact_count := l.interact_count + 1,
                    last_interact_timestamp := some now }) db) := by
  unfold track_open
  simp [isBlank_some_eq_false hh, isBlank_some_eq_false hne,
    contains_of_mem hn, hn, hfind, hopen]

/-- Claim C2 (amended) witness: the concrete green lead with no recorded
open is downgraded to yellow by its first open event. -/
theorem claim_C2_witness :
    track_open ["poland"] [mkLead "a@x.com" "Ann" "green" none 0 3]
        (some "ha@x.com") (some "poland") "t1"
      = (.image gifBytes,
         updateByEmail "a@x.com" (fun x =>
           { x with status := "yellow", opened_timestamp := some "t1",
                    interact_count := 3 + 1,
                    last_interact_timestamp := some "t1" })
           [mkLead "a@x.com" "Ann" "green" none 0 3]) :=
  claim_C2_amended ["poland"] [mkLead "a@x.com" "Ann" "green" none 0 3]
    "ha@x.com" "poland" "t1" (mkLead "a@x.com" "Ann" "green" none 0 3)
    (by decide) (by decide) (by decide) (by rfl) (by rfl)

/-- Claim C3 counterexample: a lead in status `green` receiving a click
on a generic (non-marker) destination is moved to `yellow` — only `red`
is protected against demotion by generic clicks, refuting the claim for
green leads. -/
theorem claim_C3_counterexample :
    (track_link ["poland"] [mkLead "a@x.com" "Ann" "green" none 0 3]
        (some "ha@x.com") (some "https://example.com/page") (some "poland")
        "t1").2.map Lead.status = ["yellow"] ∧
    strStartsWith "https://example.com/page" (greenMarker "poland") = false := by
  constructor <;> rfl

/-- Claim C3 (amended): a lead in status `red` never transitions to
`yellow` from a generic (non-marker) click: it keeps status `red` while
`interact_count` still increments.  (A `green` lead is not protected: the
same click moves it to `yellow`.) -/
theorem claim_C3_amended (registry : List String) (db : Db)
    (h dest name now : String) (l : Lead)
    (hh : h ≠ "") (hd : dest ≠ "") (hn : name ∈ registry) (hne : name ≠ "")
    (hfind : findByHash h db = some l) (hred : l.status = "red")
    (hgen : strStartsWith dest (greenMarker name) = false) :
    track_link registry db (some h) (some dest) (some name) now
      = (.redirectTo dest,
         updateByEmail l.email (fun x =>
           { x with interact_count := l.interact_count + 1,
                    last_interact_timestamp := some now }) db) ∧
    ((track_link registry db (some h) (some dest) (some name) now).2.map
        Lead.status) = db.map Lead.status := by
  have hmain :
      track_link registry db (some h) (some dest) (some name) now
        = (.redirectTo dest,
           updateByEmail l.email (fun x =>
             { x with interact_count := l.interact_count + 1,
                      last_interact_timestamp := some now }) db) := by
    unfold track_link get_campaign_manager
    simp [isBlank, hh, hd, hne, contains_of_mem hn, hn, hfind, hgen, hred]
  refine ⟨hmain, ?_⟩
  rw [hmain]
  unfold updateByEmail
  rw [List.map_map]
  refine List.map_congr_left fun a _ => ?_
  by_cases ha : a.email = l.email <;> simp [ha]

/-- Claim C3 (amended) witness: the concrete red lead keeps status `red`
with the counter bumped after a generic click. -/
theorem claim_C3_witness :
    track_link ["poland"] [mkLead "a@x.com" "Ann" "red" none 0 3]
        (some "ha@x.com") (some "https://example.com/page") (some "poland")
        "t1"
      = (.redirectTo "https://example.com/page",
         updateByEmail "a@x.com" (fun x =>
           { x with interact_count := 3 + 1,
                    last_interact_timestamp := some "t1" })
           [mkLead "a@x.com" "Ann" "red" none 0 3]) :=
  (claim_C3_amended ["poland"] [mkLead "a@x.com" "Ann" "red" none 0 3]
    "ha@x.com" "https://example.com/page" "poland" "t1"
    (mkLead "a@x.com" "Ann" "red" none 0 3) (by decide) (by decide)
    (by decide) (by decide) (by rfl) (by rfl) (by rfl)).1

/-- Claim C5: `opened_timestamp`, once truthy, is never changed by a
later open event (the repeat-open branch touches only the counter and the
last-interaction stamp); concretely, a fresh gray lead moves to yellow
with `interact_count = 1` and `opened_timestamp` stamped on the first
open, and a second open leaves status and `opened_timestamp` unchanged
while the counter reaches 2. -/
theorem claim_C5_opened_immutable :
    (∀ (registry : List String) (db : Db) (h name now : String) (l : Lead),
      h ≠ "" → name ∈ registry → name ≠ "" →
      findByHash h db = some l → isBlank l.opened_timestamp = false →
      track_open registry db (some h) (some name) now
        = (.image gifBytes,
           updateByEmail l.email (fun x =>
             { x with interact_count := l.interact_count + 1,
                      last_interact_timestamp := some now }) db)) ∧
    ((track_open ["poland"] [mkLead "a@x.com" "Ann" "gray" none 0 0]
        (some "ha@x.com") (some "poland") "t1").2.map
      (fun l => (l.status, l.interact_count, l.opened_timestamp))
      = [("yellow", 1, some "t1")]) ∧
    ((track_open ["poland"]
        (track_open ["poland"] [mkLead "a@x.com" "Ann" "gray" none 0 0]
          (some "ha@x.com") (some "poland") "t1").2
        (some "ha@x.com") (some "poland") "t2").2.map
      (fun l => (l.status, l.interact_count, l.opened_timestamp))
      = [("yellow", 2, some "t1")]) := by
  refine ⟨?_, rfl, rfl⟩
  intro registry db h name now l hh hn hne hfind hopen
  unfold track_open
  simp [isBlank_some_eq_false hh, isBlank_some_eq_false hne,
    contains_of_mem hn, hn, hfind, hopen]

/-- Claim C5 witness: the immutability branch applied to a lead whose
`opened_timestamp` is already `"t0"`: the second open leaves it be. -/
theorem claim_C5_witness :
    track_open ["poland"] [mkLead "a@x.com" "Ann" "yellow" (some "t0") 0 1]
        (some "ha@x.com") (some "poland") "t2"
      = (.image gifBytes,
         updateByEmail "a@x.com" (fun x =>
           { x with interact_count := 1 + 1,
                    last_interact_timestamp := some "t2" })
           [mkLead "a@x.com" "Ann" "yellow" (some "t0") 0 1]) :=
  claim_C5_opened_immutable.1 ["poland"]
    [mkLead "a@x.com" "Ann" "yellow" (some "t0") 0 1] "ha@x.com" "poland"
    "t2" (mkLead "a@x.com" "Ann" "yellow" (some "t0") 0 1) (by decide)
    (by decide) (by decide) (by rfl) (by rfl)

/-- Claim C7: a dispatch pass over the eligible gray leads records each
lead's own transport outcome — a failed send leaves the lead with
`email_sent = 0` and does not abort the pass: every other eligible lead,
before or after the failure, still ends with its own outcome
(`email_sent = 1` on success). -/
theorem claim_C7_dispatch_resilient (ok : String → Bool)
    (now tmpl : String) (db : Db) (hnd : (db.map Lead.email).Nodup)
    (l : Lead) (hl : l ∈ db) (hgray : l.status = "gray")
    (hsent : l.email_sent = 0) :
    findByEmail l.email (run_campaign_pass ok now tmpl db)
      = some (if ok l.email then
                { l with email_sent := 1,
                         interact_count := l.interact_count + 1,
                         timestamp := some now, sent_template := some tmpl,
                         last_interact_timestamp := some now }
              else l) := by
  have hfind : findByEmail l.email db = some l := findByEmail_of_nodup hnd hl
  have hmem : (l.email, l.first_name) ∈ selectEligible db := by
    unfold selectEligible
    exact List.mem_map_of_mem _ (List.mem_filter.mpr ⟨hl, by simp [hgray, hsent]⟩)
  have hndL : ((selectEligible db).map Prod.fst).Nodup := by
    unfold selectEligible
    rw [List.map_map]
    have hsub : ((db.filter fun x => x.status == "gray" && x.email_sent == 0).map
        Lead.email).Sublist (db.map Lead.email) :=
      List.Sublist.map Lead.email (List.filter_sublist db)
    exact List.Nodup.sublist hsub hnd
  have hrun := dispatch_processes ok now tmpl (selectEligible db) db l.email
    l.first_name l hndL hmem hfind hgray
  have hzero : { l with email_sent := 0 } = l := by
    obtain ⟨e, fn, st, ts, hs, op, es, cnt, lit, stp, nts⟩ := l
    simp_all
  rw [run_campaign_pass, hrun, hzero]

/-- Claim C7 witness: the spec's three-lead scenario; the transport fails
exactly on the second lead, which keeps `email_sent = 0`, while the first
and third leads end with `email_sent = 1`. -/
theorem claim_C7_witness :
    findByEmail "a@x.com" (run_campaign_pass (fun e => e != "b@x.com") "t1"
        "email.html"
        [mkLead "a@x.com" "Ann" "gray" none 0 0,
         mkLead "b@x.com" "Bob" "gray" none 0 0,
         mkLead "c@x.com" "Cam" "gray" none 0 0])
      = some { mkLead "a@x.com" "Ann" "gray" none 0 0 with
               email_sent := 1, interact_count := 0 + 1,
               timestamp := some "t1", sent_template := some "email.html",
               last_interact_timestamp := some "t1" } ∧
    findByEmail "b@x.com" (run_campaign_pass (fun e => e != "b@x.com") "t1"
        "email.html"
        [mkLead "a@x.com" "Ann" "gray" none 0 0,
         mkLead "b@x.com" "Bob" "gray" none 0 0,
         mkLead "c@x.com" "Cam" "gray" none 0 0])
      = some (mkLead "b@x.com" "Bob" "gray" none 0 0) ∧
    findByEmail "c@x.com" (run_campaign_pass (fun e => e != "b@x.com") "t1"
        "email.html"
        [mkLead "a@x.com" "Ann" "gray" none 0 0,
         mkLead "b@x.com" "Bob" "gray" none 0 0,
         mkLead "c@x.com" "Cam" "gray" none 0 0])
      = some { mkLead "c@x.com" "Cam" "gray" none 0 0 with
               email_sent := 1, interact_count := 0 + 1,
               timestamp := some "t1", sent_template := some "email.html",
               last_interact_timestamp := some "t1" } := by
  refine ⟨?_, ?_, ?_⟩
  · have h := claim_C7_dispatch_resilient (fun e => e != "b@x.com") "t1"
      "email.html"
      [mkLead "a@x.com" "Ann" "gray" none 0 0,
       mkLead "b@x.com" "Bob" "gray" none 0 0,
       mkLead "c@x.com" "Cam" "gray" none 0 0]
      (by decide) (mkLead "a@x.com" "Ann" "gray" none 0 0) (by decide)
      (by rfl) (by rfl)
    simpa using h
  · have h := claim_C7_dispatch_resilient (fun e => e != "b@x.com") "t1"
      "email.html"
      [mkLead "a@x.com" "Ann" "gray" none 0 0,
       mkLead "b@x.com" "Bob" "gray" none 0 0,
       mkLead "c@x.com" "Cam" "gray" none 0 0]
      (by decide) (mkLead "b@x.com" "Bob" "gray" none 0 0) (by decide)
      (by rfl) (by rfl)
    simpa using h
  · have h := claim_C7_dispatch_resilient (fun e => e != "b@x.com") "t1"
      "email.html"
      [mkLead "a@x.com" "Ann" "gray" none 0 0,
       mkLead "b@x.com" "Bob" "gray" none 0 0,
       mkLead "c@x.com" "Cam" "gray" none 0 0]
      (by decide) (mkLead "c@x.com" "Cam" "gray" none 0 0) (by decide)
      (by rfl) (by rfl)
    simpa using h

/-- Importing rows cannot touch any email that is already in the
duplicate-guard set: the filtered view for such an email is unchanged. -/
theorem loadRows_filter (valid : String → Bool)
    (hashEmail : String → String) (now e : String) :
    ∀ (rows : List CsvRow) (db : Db) (existing : List String),
      e ∈ existing →
      (loadRows valid hashEmail now rows db existing).filter
          (fun l => l.email == e)
        = db.filter fun l => l.email == e := by
  intro rows
  induction rows with
  | nil => intro db ex _; rfl
  | cons r rest ih =>
    intro db ex he
    show (loadRows valid hashEmail now (r :: rest) db ex).filter _ = _
    rw [loadRows]
    by_cases hv : valid r.email = true
    · by_cases hdup : r.email ∈ ex
      · rw [if_pos hv, if_pos (contains_of_mem hdup)]
        exact ih db ex he
      · rw [if_pos hv, if_neg (by rw [not_contains_of_not_mem hdup]; decide)]
        have hne : (newLead hashEmail now r).email ≠ e := fun hc =>
          hdup (by rw [show r.email = e from hc]; exact he)
        rw [ih (db ++ [newLead hashEmail now r]) (r.email :: ex)
          (List.mem_cons_of_mem _ he)]
        rw [List.filter_append]
        simp [hne]
    · rw [if_neg hv]
      exact ih db ex he

/-- Claim C8: importing an email that already has a lead row is a no-op
for that email: the CSV load never creates a second row for it and never
rewrites the existing row's status, counters, or any other field. -/
theorem claim_C8_duplicate_import (valid : String → Bool)
    (hashEmail : String → String) (now : String) (rows : List CsvRow)
    (db : Db) (e : String) (he : e ∈ db.map Lead.email) :
    (load_csv_to_db valid hashEmail now rows db).filter
        (fun l => l.email == e)
      = db.filter fun l => l.email == e := by
  unfold load_csv_to_db
  exact loadRows_filter valid hashEmail now e rows db (db.map Lead.email) he

/-- Claim C8 witness: re-importing `a@x.com` (twice in one file, with a
different first name) leaves its existing yellow row as the only row for
that address; only the fresh address is appended. -/
theorem claim_C8_witness :
    (load_csv_to_db (fun _ => true) (fun s => "h" ++ s) "t9"
        [⟨"a@x.com", "A2"⟩, ⟨"d@x.com", "Dee"⟩, ⟨"a@x.com", "A3"⟩]
        [mkLead "a@x.com" "Ann" "yellow" (some "t0") 1 4]).filter
        (fun l => l.email == "a@x.com")
      = [mkLead "a@x.com" "Ann" "yellow" (some "t0") 1 4].filter
          (fun l => l.email == "a@x.com") :=
  claim_C8_duplicate_import (fun _ => true) (fun s => "h" ++ s) "t9"
    [⟨"a@x.com", "A2"⟩, ⟨"d@x.com", "Dee"⟩, ⟨"a@x.com", "A3"⟩]
    [mkLead "a@x.com" "Ann" "yellow" (some "t0") 1 4] "a@x.com" (by decide)

/-- Claim C4: a click whose destination is the campaign's interested
marker URL, followed by the `/green` landing it redirects to, sets the
lead's status to `green` whatever it was before (in particular overriding
yellow/gray), increments `interact_count` once, and fires the
interested-notification side effect exactly once. -/
theorem claim_C4_marker_click_flow (hashEmail : String → String)
    (registry : List String) (landing : String) (db : Db)
    (h dest name now1 now2 : String) (l : Lead)
    (hh : h ≠ "") (hd : dest ≠ "") (hn : name ∈ registry) (hne : name ≠ "")
    (hfind : findByHash h db = some l)
    (hmark : strStartsWith dest (greenMarker name) = true)
    (hhash : hashEmail l.email = h)
    (huniq : ∀ l' ∈ db, hashEmail l'.email = h → l'.email = l.email) :
    greenClickFlow hashEmail registry landing db h dest name now1 now2
      = (.redirectTo dest, .redirectTo landing,
         updateByEmail l.email (fun x =>
           { x with status := "green",
                    interact_count := l.interact_count + 1,
                    last_interact_timestamp := some now1,
                    timestamp := some now2 }) db,
         1) := by
  have hfpre : ∀ x : Lead,
      ((fun y : Lead =>
        { y with status := "green",
                 interact_count := l.interact_count + 1,
                 last_interact_timestamp := some now1 }) x).email
        = x.email := fun x => rfl
  have hstep1 : track_link registry db (some h) (some dest) (some name) now1
      = (.redirectTo dest,
         updateByEmail l.email (fun y =>
           { y with status := "green",
                    interact_count := l.interact_count + 1,
                    last_interact_timestamp := some now1 }) db) := by
    unfold track_link get_campaign_manager
    simp [isBlank_some_eq_false hh, isBlank_some_eq_false hd, hne,
      contains_of_mem hn, hn, hfind, hmark]
  obtain ⟨m, hm⟩ : ∃ m, greenFind hashEmail h db = some m := by
    cases hgf : greenFind hashEmail h db with
    | some m => exact ⟨m, rfl⟩
    | none =>
      exfalso
      unfold greenFind at hgf
      have hcon := List.find?_eq_none.mp hgf l (findByHash_mem hfind)
      simp [hhash] at hcon
  have hmemail : m.email = l.email := huniq m (greenFind_mem hm) (greenFind_hash hm)
  have hgf1 : greenFind hashEmail h
      (updateByEmail l.email (fun y =>
        { y with status := "green",
                 interact_count := l.interact_count + 1,
                 last_interact_timestamp := some now1 }) db)
      = some { m with
               status := "green",
               interact_count := l.interact_count + 1,
               last_interact_timestamp := some now1 } := by
    rw [greenFind_updateByEmail hashEmail h l.email _ hfpre db, hm]
    simp [hmemail]
  have hstep2 : green hashEmail registry landing
      (updateByEmail l.email (fun y =>
        { y with status := "green",
                 interact_count := l.interact_count + 1,
                 last_interact_timestamp := some now1 }) db)
      (some h) (some name) now2
      = (.redirectTo landing,
         updateByEmail l.email (fun y =>
           { y with status := "green", timestamp := some now2 })
           (updateByEmail l.email (fun y =>
             { y with status := "green",
                      interact_count := l.interact_count + 1,
                      last_interact_timestamp := some now1 }) db),
         1) := by
    unfold green get_campaign_manager
    simp [isBlank_some_eq_false hh, hne, contains_of_mem hn, hn, hgf1, hmemail]
  unfold greenClickFlow
  rw [hstep1]
  simp only []
  rw [hstep2]
  rw [updateByEmail_updateByEmail l.email _ _ hfpre db]

/-- Claim C4 witness: a yellow lead clicking the poland campaign's
interested marker ends green with the counter bumped from 5 to 6, both
redirects issued, and exactly one notification fired. -/
theorem claim_C4_witness :
    greenClickFlow (fun s => "h" ++ s) ["poland"] "https://landing.example"
        [mkLead "a@x.com" "Ann" "yellow" none 0 5] "ha@x.com"
        (greenMarker "poland" ++ "&hash=ha@x.com") "poland" "t1" "t2"
      = (.redirectTo (greenMarker "poland" ++ "&hash=ha@x.com"),
         .redirectTo "https://landing.example",
         updateByEmail "a@x.com" (fun x =>
           { x with status := "green", interact_count := 5 + 1,
                    last_interact_timestamp := some "t1",
                    timestamp := some "t2" })
           [mkLead "a@x.com" "Ann" "yellow" none 0 5],
         1) :=
  claim_C4_marker_click_flow (fun s => "h" ++ s) ["poland"]
    "https://landing.example" [mkLead "a@x.com" "Ann" "yellow" none 0 5]
    "ha@x.com" (greenMarker "poland" ++ "&hash=ha@x.com") "poland" "t1" "t2"
    (mkLead "a@x.com" "Ann" "yellow" none 0 5) (by decide) (by decide)
    (by decide) (by decide) (by rfl) (by rfl) (by rfl) (by decide)

end ColdOutreach
